import Mathlib

/-
  Verification development for the OpenHMD Rift positional-tracking core.

  Shallow embedding of:
  - the tracked-device / delay-slot logic of the tracker core
    (rift_tracked_device_imu_update, rift_tracked_device_on_new_exposure,
    rift_tracked_device_model_pose_update, rift_tracked_device_get_view_pose,
    rift_tracked_device_exposure_claim / _release_locked, find_free_delay_slot,
    reclaim_delay_slot, get_matching_delay_slot), and
  - the UVC isochronous payload processor (process_payload in sensor/uvc.c).

  Machine integers are modelled as Nat with explicit reduction modulo 2^32 or
  2^64 where C unsigned arithmetic wraps; C int fields that the code can
  decrement are modelled as Int.  Floating point vector maths is modelled over
  the rationals (exact arithmetic).  External collaborators (the Kalman filter,
  logging, libusb) are modelled as oracle inputs and emitted operation lists.
-/

/-! ### Machine arithmetic -/

/-- Modulus of 32-bit unsigned arithmetic. -/
def U32 : Nat := 4294967296

/-- Modulus of 64-bit unsigned arithmetic. -/
def U64MOD : Nat := 18446744073709551616

/-- C unsigned 32-bit subtraction: (a - b) reduced modulo 2^32. -/
def usub32 (a b : Nat) : Nat := (a % U32 + (U32 - b % U32)) % U32

/-- C unsigned 64-bit subtraction: (a - b) reduced modulo 2^64. -/
def usub64 (a b : Nat) : Nat := (a % U64MOD + (U64MOD - b % U64MOD)) % U64MOD

/-- C usual-arithmetic-conversion sum of an unsigned 32-bit value and a signed
int: the int is converted to unsigned, i.e. the mathematical sum is reduced
modulo 2^32 into a non-negative value. -/
def u32_add_int (a : Nat) (b : Int) : Nat := (((a : Int) + b) % (U32 : Int)).toNat

/-! ### Vector / quaternion / pose maths

The vector maths helpers (rift-sensor-maths) are not part of the sources under
verification; they are modelled over exact rationals. -/

structure vec3f where
  x : ℚ
  y : ℚ
  z : ℚ
deriving DecidableEq

structure quatf where
  x : ℚ
  y : ℚ
  z : ℚ
  w : ℚ
deriving DecidableEq

structure posef where
  pos : vec3f
  orient : quatf
deriving DecidableEq

def vec3f_zero : vec3f := ⟨0, 0, 0⟩

def quatf_id : quatf := ⟨0, 0, 0, 1⟩

def posef_zero : posef := ⟨vec3f_zero, quatf_id⟩

/-- Modelled from the spec: componentwise vector addition (ovec3f_add of the
maths helpers, which are not under src/). -/
def ovec3f_add (a b : vec3f) : vec3f := ⟨a.x + b.x, a.y + b.y, a.z + b.z⟩

/-- Modelled from the spec: componentwise vector subtraction (ovec3f_subtract). -/
def ovec3f_subtract (a b : vec3f) : vec3f := ⟨a.x - b.x, a.y - b.y, a.z - b.z⟩

/-- Modelled from the spec: vector cross product (ovec3f_cross). -/
def ovec3f_cross (a b : vec3f) : vec3f :=
  ⟨a.y * b.z - a.z * b.y, a.z * b.x - a.x * b.z, a.x * b.y - a.y * b.x⟩

/-- Modelled from the spec: rotation of a vector by a quaternion
(oquatf_get_rotated), in the standard form v + w*t + qv x t with
t = 2 (qv x v). -/
def oquatf_get_rotated (q : quatf) (v : vec3f) : vec3f :=
  let t : vec3f := ⟨2 * (q.y * v.z - q.z * v.y), 2 * (q.z * v.x - q.x * v.z),
                    2 * (q.x * v.y - q.y * v.x)⟩
  ⟨v.x + q.w * t.x + (q.y * t.z - q.z * t.y),
   v.y + q.w * t.y + (q.z * t.x - q.x * t.z),
   v.z + q.w * t.z + (q.x * t.y - q.y * t.x)⟩

/-- Modelled from the spec: rotation of a vector by a quaternion followed by a
componentwise absolute value (oquatf_get_rotated_abs, used to move covariance
extents between frames). -/
def oquatf_get_rotated_abs (q : quatf) (v : vec3f) : vec3f :=
  let r := oquatf_get_rotated q v
  ⟨abs r.x, abs r.y, abs r.z⟩

/-- Modelled from the spec: quaternion (Hamilton) product, b * a. -/
def oquatf_mult (b a : quatf) : quatf :=
  ⟨b.w * a.x + b.x * a.w + b.y * a.z - b.z * a.y,
   b.w * a.y - b.x * a.z + b.y * a.w + b.z * a.x,
   b.w * a.z + b.x * a.y - b.y * a.x + b.z * a.w,
   b.w * a.w - b.x * a.x - b.y * a.y - b.z * a.z⟩

/-- Modelled from the spec: pose composition (oposef_apply a b dest):
transform pose a by pose b, i.e. dest = b applied after a. -/
def oposef_apply (a b : posef) : posef :=
  ⟨ovec3f_add (oquatf_get_rotated b.orient a.pos) b.pos, oquatf_mult b.orient a.orient⟩

/-! ### Exponential output pose filter

exponential-filter.c is not under src/.  Modelled from the spec: "The output
filter is an exponential moving filter over pose (position and quaternion)".
The first run passes its input through; subsequent runs blend the previous
output toward the input with a smoothing coefficient alpha. -/

/-- Componentwise linear interpolation for positions: p + alpha * (q - p). -/
def vec3f_lerp (alpha : ℚ) (p q : vec3f) : vec3f :=
  ⟨p.x + alpha * (q.x - p.x), p.y + alpha * (q.y - p.y), p.z + alpha * (q.z - p.z)⟩

/-- Componentwise blend for quaternions (un-normalised lerp of the model). -/
def quatf_lerp (alpha : ℚ) (p q : quatf) : quatf :=
  ⟨p.x + alpha * (q.x - p.x), p.y + alpha * (q.y - p.y),
   p.z + alpha * (q.z - p.z), p.w + alpha * (q.w - p.w)⟩

structure exp_filter_pose where
  alpha : ℚ
  state : Option posef
deriving DecidableEq

/-- Modelled from the spec: one step of the exponential moving pose filter.
Returns the updated filter and the smoothed output pose. -/
def exp_filter_pose_run (f : exp_filter_pose) (ts : Nat) (in_pose : posef) :
    exp_filter_pose × posef :=
  match f.state with
  | none => ({ f with state := some in_pose }, in_pose)
  | some prev =>
    let out : posef := ⟨vec3f_lerp f.alpha prev.pos in_pose.pos,
                        quatf_lerp f.alpha prev.orient in_pose.orient⟩
    ({ f with state := some out }, out)

/-! ### Tracker-core data model (rift-tracker.c) -/

/-- Number of pose delay slots per device (NUM_POSE_DELAY_SLOTS). -/
def NUM_POSE_DELAY_SLOTS : Nat := 3

/-- Position tracking-lost threshold, milliseconds (POSE_LOST_THRESHOLD). -/
def POSE_LOST_THRESHOLD : Nat := 500

/-- Forced-orientation threshold, milliseconds (POSE_LOST_ORIENT_THRESHOLD). -/
def POSE_LOST_ORIENT_THRESHOLD : Nat := 100

/-- Capacity of the pending IMU observation ring. -/
def RIFT_MAX_PENDING_IMU_OBSERVATIONS : Nat := 1000

/-- Modelled from the spec: RIFT_MAX_SENSORS, the per-slot pose report bound,
is declared in rift-tracker.h which is not under src/; the spec bounds the
report array by MAX_SENSORS.  The concrete value is not claim-relevant. -/
def RIFT_MAX_SENSORS : Nat := 4

/-- Modelled from the spec: the pose-match score flags.  The revision of
rift-sensor-pose-helper.h under src/ predates the flags field; the claims and
spec name the RIFT_POSE_MATCH_POSITION and RIFT_POSE_MATCH_ORIENT bits, which
are modelled as booleans of the score. -/
structure rift_pose_metrics where
  match_position : Bool
  match_orient : Bool
deriving DecidableEq

structure rift_tracker_pose_report where
  report_used : Bool
  pose : posef
  score : rift_pose_metrics
deriving DecidableEq

/-- One pose delay slot.  The C struct carries slot_id, always equal to the
slot index (set once at device init and never changed); the index stands in
for it here.  n_pose_reports is the length of pose_reports. -/
structure rift_tracker_pose_delay_slot where
  valid : Bool
  use_count : Int
  device_time_ns : Nat
  pose_reports : List rift_tracker_pose_report
  n_used_reports : Nat
deriving DecidableEq

/-- The fixed array of NUM_POSE_DELAY_SLOTS = 3 delay slots. -/
structure DelaySlots where
  s0 : rift_tracker_pose_delay_slot
  s1 : rift_tracker_pose_delay_slot
  s2 : rift_tracker_pose_delay_slot
deriving DecidableEq

def DelaySlots.get (s : DelaySlots) : Fin 3 → rift_tracker_pose_delay_slot
  | ⟨0, _⟩ => s.s0
  | ⟨1, _⟩ => s.s1
  | ⟨2, _⟩ => s.s2

def DelaySlots.set (s : DelaySlots) : Fin 3 → rift_tracker_pose_delay_slot → DelaySlots
  | ⟨0, _⟩, v => { s with s0 := v }
  | ⟨1, _⟩, v => { s with s1 := v }
  | ⟨2, _⟩, v => { s with s2 := v }

/-- Per-device entry of the exposure info record
(rift_tracked_device_exposure_info). -/
structure rift_tracked_device_exposure_info where
  device_time_ns : Nat
  fusion_slot : Int
  had_pose_lock : Bool
  capture_pose : posef
  pos_error : vec3f
  rot_error : vec3f
deriving DecidableEq

structure rift_tracked_device_imu_observation where
  local_ts : Nat
  device_ts : Nat
  dt : ℚ
  ang_vel : vec3f
  accel : vec3f
  mag : vec3f
deriving DecidableEq

/-- Tracked-device state (rift_tracked_device_priv), the fields the claims
reach.  device_time_ns is the u64 extended clock; last_device_ts the raw u32
timestamp. -/
structure rift_tracked_device_priv where
  delay_slot_index : Fin 3
  delay_slots : DelaySlots
  device_from_fusion : posef
  fusion_from_model : posef
  model_from_fusion : posef
  last_device_ts : Nat
  device_time_ns : Nat
  last_observed_orient_ts : Nat
  last_observed_pose_ts : Nat
  last_observed_pose : posef
  last_reported_pose : Nat
  reported_pose : posef
  model_pose : posef
  pose_output_filter : exp_filter_pose
  pending_imu_observations : List rift_tracked_device_imu_observation
deriving DecidableEq

/-- Calls into the external 6DOF Kalman filter, recorded as events. -/
inductive KalmanOp where
  | imu_step (t : Nat)
  | prepare_delay_slot (t : Nat) (slot : Nat)
  | release_delay_slot (slot : Nat)
  | pose_update (t : Nat) (slot : Nat)
  | position_update (t : Nat) (slot : Nat)
deriving DecidableEq

/-! ### Tracker-core operations -/

/-- Successor modulo 3, the (slot_no + 1) % NUM_POSE_DELAY_SLOTS cursor step. -/
def succ3 (i : Fin 3) : Fin 3 := ⟨(i.val + 1) % 3, Nat.mod_lt _ (by decide)⟩

/-- find_free_delay_slot: the three-iteration scan of the source loop,
unrolled.  Each iteration examines the slot under the round-robin cursor,
advances the cursor, and returns the slot if its use_count is 0. -/
def find_free_delay_slot (dev : rift_tracked_device_priv) :
    Option (Fin 3) × rift_tracked_device_priv :=
  let i0 := dev.delay_slot_index
  let i1 := succ3 i0
  let i2 := succ3 i1
  if (dev.delay_slots.get i0).use_count = 0 then
    (some i0, { dev with delay_slot_index := i1 })
  else if (dev.delay_slots.get i1).use_count = 0 then
    (some i1, { dev with delay_slot_index := i2 })
  else if (dev.delay_slots.get i2).use_count = 0 then
    (some i2, { dev with delay_slot_index := succ3 i2 })
  else
    (none, { dev with delay_slot_index := succ3 i2 })

/-- reclaim_delay_slot: first slot, by index, that is valid and has already
delivered a used pose report (source loop over the three slots, unrolled). -/
def reclaim_delay_slot (dev : rift_tracked_device_priv) : Option (Fin 3) :=
  if (dev.delay_slots.get 0).valid = true ∧ 0 < (dev.delay_slots.get 0).n_used_reports then
    some 0
  else if (dev.delay_slots.get 1).valid = true ∧ 0 < (dev.delay_slots.get 1).n_used_reports then
    some 1
  else if (dev.delay_slots.get 2).valid = true ∧ 0 < (dev.delay_slots.get 2).n_used_reports then
    some 2
  else
    none

/-- get_matching_delay_slot: the slot named by the exposure entry, if in range,
still valid and stamped with the same device time. -/
def get_matching_delay_slot (dev : rift_tracked_device_priv)
    (dev_info : rift_tracked_device_exposure_info) : Option (Fin 3) :=
  if h : 0 ≤ dev_info.fusion_slot ∧ dev_info.fusion_slot < 3 then
    let i : Fin 3 := ⟨dev_info.fusion_slot.toNat, by omega⟩
    if (dev.delay_slots.get i).valid = true ∧
        (dev.delay_slots.get i).device_time_ns = dev_info.device_time_ns then
      some i
    else
      none
  else
    none

/-- rift_tracked_device_imu_update, the clock-extension and observation-ring
part.  The Kalman IMU update is emitted as an event.  Both multiplications by
1000 are performed in C unsigned 32-bit arithmetic (uint32_t * int), hence the
explicit reduction modulo 2^32; the += is 64-bit. -/
def rift_tracked_device_imu_update (dev : rift_tracked_device_priv)
    (local_ts : Nat) (device_ts : Nat) (dt : ℚ) (ang_vel accel mag : vec3f) :
    rift_tracked_device_priv × List KalmanOp :=
  let dev :=
    if dev.device_time_ns = 0 then
      { dev with device_time_ns := device_ts * 1000 % U32 }
    else
      { dev with device_time_ns :=
          (dev.device_time_ns + usub32 device_ts dev.last_device_ts * 1000 % U32) % U64MOD }
  let dev := { dev with last_device_ts := device_ts }
  let obs : rift_tracked_device_imu_observation :=
    ⟨local_ts, dev.device_time_ns, dt, ang_vel, accel, mag⟩
  let pend := dev.pending_imu_observations ++ [obs]
  let pend := if pend.length = RIFT_MAX_PENDING_IMU_OBSERVATIONS then [] else pend
  ({ dev with pending_imu_observations := pend }, [KalmanOp.imu_step dev.device_time_ns])

/-- rift_tracked_device_get_model_pose_locked.  The Kalman pose query result is
an oracle input (imu_global_pose and the global covariance extents).  Returns
the updated device and the reported model pose and errors. -/
def rift_tracked_device_get_model_pose_locked (dev : rift_tracked_device_priv)
    (imu_global_pose : posef) (global_pos_error global_rot_error : vec3f) :
    rift_tracked_device_priv × posef × vec3f × vec3f :=
  let model_pose := oposef_apply dev.model_from_fusion imu_global_pose
  let pos_error := oquatf_get_rotated_abs dev.model_from_fusion.orient global_pos_error
  let rot_error := oquatf_get_rotated_abs dev.model_from_fusion.orient global_rot_error
  let mp := { dev.model_pose with orient := model_pose.orient }
  let mp :=
    if usub64 dev.device_time_ns dev.last_observed_pose_ts <
        POSE_LOST_THRESHOLD * 1000000 then
      { mp with pos := model_pose.pos }
    else
      mp
  ({ dev with model_pose := mp }, mp, pos_error, rot_error)

/-- rift_tracked_device_on_new_exposure: allocate (or reclaim) a delay slot for
a new exposure and populate the device exposure entry.  The Kalman pose query
feeding the capture pose is an oracle input. -/
def rift_tracked_device_on_new_exposure (dev : rift_tracked_device_priv)
    (dev_info : rift_tracked_device_exposure_info)
    (kal_pose : posef) (kal_pos_error kal_rot_error : vec3f) :
    rift_tracked_device_priv × rift_tracked_device_exposure_info × List KalmanOp :=
  let fr := find_free_delay_slot dev
  let dev := fr.2
  let dev_info := { dev_info with device_time_ns := dev.device_time_ns }
  let slot? :=
    match fr.1 with
    | some i => some i
    | none => reclaim_delay_slot dev
  match slot? with
  | some i =>
    let slot : rift_tracker_pose_delay_slot :=
      { valid := true, use_count := 0, device_time_ns := dev_info.device_time_ns,
        pose_reports := [], n_used_reports := 0 }
    let dev := { dev with delay_slots := dev.delay_slots.set i slot }
    let dev_info :=
      { dev_info with
        fusion_slot := (i.val : Int),
        had_pose_lock :=
          decide (usub64 dev.device_time_ns dev.last_observed_pose_ts <
            POSE_LOST_THRESHOLD * 1000000) }
    let gm := rift_tracked_device_get_model_pose_locked dev kal_pose kal_pos_error kal_rot_error
    let dev := gm.1
    let dev_info :=
      { dev_info with
        capture_pose := gm.2.1,
        pos_error := gm.2.2.1,
        rot_error := gm.2.2.2 }
    (dev, dev_info, [KalmanOp.prepare_delay_slot dev_info.device_time_ns i.val])
  | none =>
    (dev, { dev_info with fusion_slot := -1 }, [])

/-- rift_tracked_device_exposure_claim: claim the matching delay slot for a
frame (use_count++), or clear the exposure entry when the slot was lost. -/
def rift_tracked_device_exposure_claim (dev : rift_tracked_device_priv)
    (dev_info : rift_tracked_device_exposure_info) :
    rift_tracked_device_priv × rift_tracked_device_exposure_info :=
  match get_matching_delay_slot dev dev_info with
  | some i =>
    let slot := dev.delay_slots.get i
    ({ dev with delay_slots := dev.delay_slots.set i { slot with use_count := slot.use_count + 1 } },
     { dev_info with fusion_slot := (i.val : Int) })
  | none =>
    (dev, if dev_info.fusion_slot ≠ -1 then { dev_info with fusion_slot := -1 } else dev_info)

/-- rift_tracked_device_exposure_release_locked: release the matching delay
slot.  The decrement is guarded by use_count > 0; when use_count is 0 after
that, the Kalman filter is told to release the slot and the slot is
invalidated; the exposure entry is cleared so it is not released twice. -/
def rift_tracked_device_exposure_release_locked (dev : rift_tracked_device_priv)
    (dev_info : rift_tracked_device_exposure_info) :
    rift_tracked_device_priv × rift_tracked_device_exposure_info × List KalmanOp :=
  match get_matching_delay_slot dev dev_info with
  | none => (dev, dev_info, [])
  | some i =>
    let slot := dev.delay_slots.get i
    let slot := if 0 < slot.use_count then { slot with use_count := slot.use_count - 1 } else slot
    let r :=
      if slot.use_count = 0 then
        ({ slot with valid := false }, [KalmanOp.release_delay_slot i.val])
      else
        (slot, ([] : List KalmanOp))
    ({ dev with delay_slots := dev.delay_slots.set i r.1 },
     { dev_info with fusion_slot := -1 }, r.2)

/-- Result record of rift_tracked_device_model_pose_update: the new device
state, the C return value, the two internal acceptance flags the gates
compute, and the Kalman filter calls made. -/
structure ModelPoseUpdateResult where
  dev : rift_tracked_device_priv
  ret : Bool
  update_position : Bool
  update_orientation : Bool
  ops : List KalmanOp
deriving DecidableEq

/-- rift_tracked_device_model_pose_update.  dev_info? is the device entry of
the exposure info (none models a device whose index is at or past
n_devices). -/
def rift_tracked_device_model_pose_update (dev : rift_tracked_device_priv)
    (dev_info? : Option rift_tracked_device_exposure_info)
    (score : rift_pose_metrics) (model_pose : posef) : ModelPoseUpdateResult :=
  let imu_pose := oposef_apply dev.fusion_from_model model_pose
  match dev_info? with
  | none => ⟨dev, false, false, false, []⟩
  | some dev_info =>
    let frame_device_time_ns := dev_info.device_time_ns
    match get_matching_delay_slot dev dev_info with
    | none => ⟨dev, false, false, false, []⟩
    | some i =>
      let update_position : Bool :=
        !(dev_info.had_pose_lock && !score.match_position &&
          decide (frame_device_time_ns < dev.last_observed_pose_ts))
      let update_orientation : Bool :=
        score.match_orient ||
          decide (POSE_LOST_ORIENT_THRESHOLD * 1000000 <
            usub64 dev.device_time_ns dev.last_observed_pose_ts)
      let dev :=
        if score.match_orient && update_position then
          { dev with last_observed_orient_ts := dev.device_time_ns }
        else
          dev
      let r :=
        if update_position then
          ({ dev with
              last_observed_pose_ts := dev.device_time_ns,
              last_observed_pose := imu_pose },
           if update_orientation then
             [KalmanOp.pose_update dev.device_time_ns i.val]
           else
             [KalmanOp.position_update dev.device_time_ns i.val])
        else
          (dev, ([] : List KalmanOp))
      let dev := r.1
      let slot := dev.delay_slots.get i
      let slot :=
        if slot.pose_reports.length < RIFT_MAX_SENSORS then
          { slot with
            pose_reports := slot.pose_reports ++ [⟨update_position, imu_pose, score⟩],
            n_used_reports := slot.n_used_reports + if update_position then 1 else 0 }
        else
          slot
      let dev := { dev with delay_slots := dev.delay_slots.set i slot }
      ⟨dev, update_position || update_orientation, update_position, update_orientation, r.2⟩

/-- Result of rift_tracked_device_get_view_pose, the four out parameters. -/
structure ViewPoseResult where
  pose : posef
  vel : vec3f
  accel : vec3f
  ang_vel : vec3f
deriving DecidableEq

/-- rift_tracked_device_get_view_pose.  The Kalman pose query at
device_time_ns is an oracle input (imu_global_pose and the IMU-frame
velocity, acceleration and angular velocity). -/
def rift_tracked_device_get_view_pose (dev : rift_tracked_device_priv)
    (imu_global_pose : posef) (imu_vel imu_accel imu_ang_vel : vec3f) :
    rift_tracked_device_priv × ViewPoseResult :=
  let step :=
    if dev.last_reported_pose < dev.device_time_ns then
      let device_pose := oposef_apply dev.device_from_fusion imu_global_pose
      let dev1 := { dev with reported_pose :=
        { dev.reported_pose with orient := device_pose.orient } }
      let adj :=
        if POSE_LOST_THRESHOLD * 1000000 ≤
            usub64 dev.device_time_ns dev.last_observed_pose_ts then
          ({ device_pose with pos := dev1.reported_pose.pos }, vec3f_zero, vec3f_zero)
        else
          (device_pose, imu_vel, imu_accel)
      let fr := exp_filter_pose_run dev1.pose_output_filter dev1.device_time_ns adj.1
      ({ dev1 with
          reported_pose := fr.2,
          pose_output_filter := fr.1,
          last_reported_pose := dev1.device_time_ns }, adj.2.1, adj.2.2)
    else
      (dev, imu_vel, imu_accel)
  let dev := step.1
  let vel0 := step.2.1
  let accel0 := step.2.2
  let device_ang_vel := oquatf_get_rotated dev.device_from_fusion.orient imu_ang_vel
  let out_accel := oquatf_get_rotated dev.device_from_fusion.orient accel0
  let rotated_imu_pos :=
    oquatf_get_rotated dev.device_from_fusion.orient dev.device_from_fusion.pos
  let extra_lin_vel := ovec3f_cross device_ang_vel rotated_imu_pos
  let out_vel := ovec3f_add (oquatf_get_rotated dev.device_from_fusion.orient vel0) extra_lin_vel
  (dev, ⟨dev.reported_pose, out_vel, out_accel, device_ang_vel⟩)

/-! ### UVC isochronous payload processor (sensor/uvc.c) -/

/-- A video frame of the pool (ohmd_video_frame); the release hook and owner
back-pointer are pool bookkeeping outside the payload processor. -/
structure ohmd_video_frame where
  data : List Nat
  data_size : Nat
  pts : Nat
  start_ts : Nat
  stride : Nat
  width : Nat
  height : Nat
deriving DecidableEq

/-- UVC stream state (rift_sensor_uvc_stream), the fields process_payload
reaches.  free_frames is the free stack (the C array is used LIFO, push and
pop at n_free_frames); n_free_frames is its length.  has_frame_cb models a
non-null frame_cb pointer. -/
structure rift_sensor_uvc_stream where
  frame_id : Nat
  cur_pts : Nat
  frame_collected : Nat
  frame_size : Nat
  skip_frame : Bool
  cur_frame : Option ohmd_video_frame
  free_frames : List ohmd_video_frame
  stride : Nat
  width : Nat
  height : Nat
  has_frame_cb : Bool
deriving DecidableEq

/-- Externally visible effects of process_payload: each completed frame handed
to the frame callback, and the out-of-bounds memcpy the C code performs when
a negative payload_len survives the unsigned overflow comparison.  Reaching
memcpy_out_of_bounds is undefined behavior in the C program (the copy size
(size_t)payload_len is huge); past that event the model asserts nothing
about the real program state. -/
inductive UVCEvent where
  | frame_done (f : ohmd_video_frame)
  | memcpy_out_of_bounds
deriving DecidableEq

/-- Little-endian 32-bit read of payload bytes 2..5 (dwPresentationTime). -/
def uvc_le32_pts (p : List Nat) : Nat :=
  p.getD 2 0 + 256 * p.getD 3 0 + 65536 * p.getD 4 0 + 16777216 * p.getD 5 0

/-- Mid-frame PTS change handling of process_payload: when a PTS is present,
bytes of the frame were already collected and the PTS differs, the new PTS is
adopted. -/
def uvc_adopt_pts (stream : rift_sensor_uvc_stream) (have_pts : Bool) (pts : Nat) :
    rift_sensor_uvc_stream :=
  if have_pts = true ∧ stream.frame_collected ≠ 0 ∧ pts ≠ stream.cur_pts then
    { stream with cur_pts := pts }
  else
    stream

/-- New-frame-start handling of process_payload: when the frame-id parity
toggles, acquire a frame from the free stack if none is held, reset the
per-frame accumulation state (any short previous frame is thereby dropped),
set skip_frame when no frame could be acquired, and stamp the fresh frame. -/
def uvc_new_frame (stream : rift_sensor_uvc_stream) (frame_id pts now : Nat) :
    rift_sensor_uvc_stream :=
  if frame_id ≠ stream.frame_id then
    let stream :=
      if stream.cur_frame = none then
        match stream.free_frames with
        | [] => stream
        | f :: rest => { stream with cur_frame := some f, free_frames := rest }
      else
        stream
    let stream :=
      { stream with
        frame_id := frame_id,
        cur_pts := pts,
        frame_collected := 0,
        skip_frame := stream.cur_frame = none }
    match stream.cur_frame with
    | none => stream
    | some f =>
      { stream with
        cur_frame := some { f with
          start_ts := now,
          pts := pts,
          stride := stream.stride,
          width := stream.width,
          height := stream.height } }
  else
    stream

/-- Payload-body append of process_payload: skip when no frame is being
collected, drop on overflow, copy the body into the frame, deliver the frame
through the callback when full, and always reset the accumulation count on
EOF.  payload_len is the C signed int len - bHeaderLength, negative for
payloads of 1..11 bytes whose first byte is 12.  The overflow comparison
frame_collected + payload_len > frame_size converts the int to unsigned
(u32_add_int); when a negative payload_len survives it, the memcpy size
argument (size_t)payload_len is huge and the copy runs past the frame
buffer: undefined behavior, surfaced as the memcpy_out_of_bounds event (the
returned state then models nothing about the real program).  The += on the
unsigned frame_collected is the same mod-2^32 sum. -/
def uvc_append (stream : rift_sensor_uvc_stream) (body : List Nat)
    (payload_len : Int) (is_eof : Bool) :
    rift_sensor_uvc_stream × List UVCEvent :=
  if stream.skip_frame = true ∨ stream.cur_frame = none then (stream, [])
  else if stream.frame_size < u32_add_int stream.frame_collected payload_len then
    (stream, [])
  else
    match stream.cur_frame with
    | none => (stream, [])
    | some f =>
      if payload_len < 0 then (stream, [UVCEvent.memcpy_out_of_bounds])
      else
        let l := payload_len.toNat
        let f :=
          { f with
            data := f.data.take stream.frame_collected ++ body ++
              f.data.drop (stream.frame_collected + l) }
        let stream :=
          { stream with
            cur_frame := some f,
            frame_collected := u32_add_int stream.frame_collected payload_len }
        let r :=
          if stream.frame_collected = stream.frame_size then
            let r2 :=
              if stream.has_frame_cb then
                ({ stream with cur_frame := none }, [UVCEvent.frame_done f])
              else
                (stream, ([] : List UVCEvent))
            ({ r2.1 with frame_collected := 0 }, r2.2)
          else
            (stream, [])
        let stream := if is_eof then { r.1 with frame_collected := 0 } else r.1
        (stream, r.2)

/-- process_payload of sensor/uvc.c.  The payload is the raw byte list
(header plus body); now is the CLOCK_MONOTONIC timestamp read at a new frame
start.  Logging is dropped; every state change is kept, in source order:
early rejects, PTS adoption, new-frame start, body append.  The C int
payload_len = len - bHeaderLength is modelled as a signed Int: it is
negative for payloads of 1..11 bytes whose first byte is 12 (the early
returns only cover len = 0 and len = 12), and uvc_append carries the
resulting unsigned-comparison and out-of-bounds-memcpy behavior. -/
def process_payload (stream : rift_sensor_uvc_stream) (payload : List Nat)
    (now : Nat) : rift_sensor_uvc_stream × List UVCEvent :=
  let len := payload.length
  if len = 0 then (stream, [])
  else if len = 12 then (stream, [])
  else if payload.getD 0 0 ≠ 12 then (stream, [])
  else
    let info := payload.getD 1 0
    let body := payload.drop 12
    let payload_len : Int := (len : Int) - 12
    let frame_id := info % 2
    let is_eof := info.testBit 1
    let have_pts := info.testBit 2
    let error := info.testBit 6
    if error then (stream, [])
    else
      let pts := if have_pts then uvc_le32_pts payload else U32 - 1
      let stream := uvc_adopt_pts stream have_pts pts
      let stream := uvc_new_frame stream frame_id pts now
      uvc_append stream body payload_len is_eof

/-! ### Concrete states used by witnesses and counterexamples -/

/-- A delay slot as initialised at device creation. -/
def slot_free_init : rift_tracker_pose_delay_slot :=
  { valid := false, use_count := 0, device_time_ns := 0, pose_reports := [],
    n_used_reports := 0 }

/-- A tracked device as initialised by rift_tracker_add_device. -/
def dev_init : rift_tracked_device_priv :=
  { delay_slot_index := 0,
    delay_slots := ⟨slot_free_init, slot_free_init, slot_free_init⟩,
    device_from_fusion := posef_zero,
    fusion_from_model := posef_zero,
    model_from_fusion := posef_zero,
    last_device_ts := 0,
    device_time_ns := 0,
    last_observed_orient_ts := 0,
    last_observed_pose_ts := 0,
    last_observed_pose := posef_zero,
    last_reported_pose := 0,
    reported_pose := posef_zero,
    model_pose := posef_zero,
    pose_output_filter := { alpha := 0, state := none },
    pending_imu_observations := [] }

/-- An empty per-device exposure entry. -/
def info_init : rift_tracked_device_exposure_info :=
  { device_time_ns := 0, fusion_slot := -1, had_pose_lock := false,
    capture_pose := posef_zero, pos_error := vec3f_zero, rot_error := vec3f_zero }

/-- A 16-byte video frame. -/
def frame16 : ohmd_video_frame :=
  { data := List.replicate 16 0, data_size := 16, pts := 0, start_ts := 0,
    stride := 4, width := 4, height := 4 }

/-- A UVC stream collecting a 16-byte frame. -/
def stream_base : rift_sensor_uvc_stream :=
  { frame_id := 0, cur_pts := 0, frame_collected := 0, frame_size := 16,
    skip_frame := false, cur_frame := some frame16, free_frames := [],
    stride := 4, width := 4, height := 4, has_frame_cb := true }

/-- Device for the C2 wrap-around witness: clock already running, raw
timestamp near the 32-bit boundary. -/
def dev_c2w : rift_tracked_device_priv :=
  { dev_init with device_time_ns := 1000000, last_device_ts := 4294967040 }

/-- Device for the C2 counterexample: clock already running, last raw
timestamp 0. -/
def dev_c2c : rift_tracked_device_priv :=
  { dev_init with device_time_ns := 1000 }

/-- Device and entry for the C9 witness: slot 0 claimed once. -/
def dev_c9w : rift_tracked_device_priv :=
  { dev_init with
    delay_slots :=
      ⟨{ slot_free_init with valid := true, use_count := 1, device_time_ns := 100 },
       slot_free_init, slot_free_init⟩ }

def info_c9w : rift_tracked_device_exposure_info :=
  { info_init with fusion_slot := 0, device_time_ns := 100 }

/-- Entry naming a freed slot, for the C9 witness. -/
def info_c9f : rift_tracked_device_exposure_info :=
  { info_init with fusion_slot := 0 }

/-- Device for the C3 counterexample: a position was accepted 50 ms ago, but
no orientation has matched for 200 ms. -/
def dev_c3c : rift_tracked_device_priv :=
  { dev_init with
    device_time_ns := 200000000,
    last_observed_pose_ts := 150000000,
    last_observed_orient_ts := 0,
    delay_slots :=
      ⟨{ slot_free_init with valid := true, use_count := 1, device_time_ns := 190000000 },
       slot_free_init, slot_free_init⟩ }

/-- Device for the C3 witness: no position accepted for 200 ms, so the forced
orientation refresh fires. -/
def dev_c3w : rift_tracked_device_priv :=
  { dev_c3c with last_observed_pose_ts := 0 }

def info_c3c : rift_tracked_device_exposure_info :=
  { info_init with fusion_slot := 0, device_time_ns := 190000000 }

/-- A score with a position match but no orientation match. -/
def score_c3 : rift_pose_metrics := { match_position := true, match_orient := false }

/-- Device for the C4 witness: the device had pose lock and a newer position
observation (ts 300) than the exposure time (ts 200). -/
def dev_c4w : rift_tracked_device_priv :=
  { dev_init with
    device_time_ns := 400,
    last_observed_pose_ts := 300,
    delay_slots :=
      ⟨{ slot_free_init with valid := true, use_count := 1, device_time_ns := 200 },
       slot_free_init, slot_free_init⟩ }

def info_c4w : rift_tracked_device_exposure_info :=
  { info_init with fusion_slot := 0, device_time_ns := 200, had_pose_lock := true }

/-- A score lacking MATCH_POSITION but carrying MATCH_ORIENT. -/
def score_c4 : rift_pose_metrics := { match_position := false, match_orient := true }

/-- Device for the C4 counterexample: as the witness device, but the matching
slot already holds RIFT_MAX_SENSORS pose reports. -/
def dev_c4c : rift_tracked_device_priv :=
  { dev_c4w with
    delay_slots :=
      ⟨{ slot_free_init with
         valid := true, use_count := 1, device_time_ns := 200,
         pose_reports := List.replicate RIFT_MAX_SENSORS
           { report_used := false, pose := posef_zero,
             score := { match_position := false, match_orient := false } } },
       slot_free_init, slot_free_init⟩ }

/-- Device for the C5 witness: 600 ms since the last positional observation,
fresh output filter. -/
def dev_c5w : rift_tracked_device_priv :=
  { dev_init with device_time_ns := 600000000 }

abbrev uvc_payload_rejected (p : List Nat) : Prop :=
  p.length = 0 ∨ p.length = 12 ∨ p.getD 0 0 ≠ 12 ∨ (p.getD 1 0).testBit 6 = true

def stream_c8 : rift_sensor_uvc_stream :=
  { stream_base with frame_size := 4, frame_collected := 3 }

def uvc_p_c8 : List Nat := [12, 2, 0, 0, 0, 0, 0, 0, 0, 0, 0, 0, 9, 9, 9]

/-- A stream mid-frame (10 of 16 bytes collected), for the C7 failing input. -/
def stream_runt : rift_sensor_uvc_stream :=
  { stream_base with frame_collected := 10 }

/-- A 5-byte runt payload whose first byte is 12: it passes every reject
check (length is neither 0 nor 12, bHeaderLength reads as 12, no error bit)
yet has no complete header; the C payload_len for it is 5 - 12 = -7. -/
def uvc_p_runt : List Nat := [12, 0, 0, 0, 0]

/-! ### Helper lemmas -/

theorem DelaySlots.get_set (s : DelaySlots) (i j : Fin 3)
    (v : rift_tracker_pose_delay_slot) :
    (s.set i v).get j = if j = i then v else s.get j := by
  fin_cases i <;> fin_cases j <;>
    simp [DelaySlots.get, DelaySlots.set, Fin.ext_iff]

theorem get_matching_delay_slot_none_of_neg (dev : rift_tracked_device_priv)
    (info : rift_tracked_device_exposure_info) (h : info.fusion_slot = -1) :
    get_matching_delay_slot dev info = none := by
  unfold get_matching_delay_slot
  rw [dif_neg]
  rw [h]
  decide

theorem get_matching_delay_slot_some_spec (dev : rift_tracked_device_priv)
    (info : rift_tracked_device_exposure_info) (i : Fin 3)
    (h : get_matching_delay_slot dev info = some i) :
    info.fusion_slot = (i.val : Int) ∧ (dev.delay_slots.get i).valid = true ∧
    (dev.delay_slots.get i).device_time_ns = info.device_time_ns := by
  unfold get_matching_delay_slot at h
  split at h
  · rename_i hrange
    dsimp only at h
    split at h
    · rename_i hcond
      injection h with h2
      subst h2
      refine ⟨?_, hcond.1, hcond.2⟩
      show info.fusion_slot = ((info.fusion_slot.toNat : Nat) : Int)
      omega
    · exact absurd h (by simp)
  · exact absurd h (by simp)

theorem oquatf_get_rotated_zero (q : quatf) :
    oquatf_get_rotated q vec3f_zero = vec3f_zero := by
  simp [oquatf_get_rotated, vec3f_zero]

theorem ovec3f_add_zero_left (v : vec3f) : ovec3f_add vec3f_zero v = v := by
  simp [ovec3f_add, vec3f_zero]

theorem vec3f_lerp_self (a : ℚ) (p : vec3f) : vec3f_lerp a p p = p := by
  simp [vec3f_lerp]

/-! ### Claim C2 - IMU clock advance -/

/-- Claim C2 counterexample: with last_raw = 0 and new_raw = 5000000 (a 5 s
gap), the claimed advance (uint32_t)(new_raw - last_raw) * 1000 read as the
mathematical product 5000000000 is NOT what the clock advances by: the C
multiplication is performed in 32-bit arithmetic, so the clock advances by
5000000000 mod 2^32 = 705032704 ns instead. -/
theorem imu_update_clock_advance_counterexample :
    dev_c2c.device_time_ns ≠ 0 ∧
    usub32 5000000 dev_c2c.last_device_ts * 1000 = 5000000000 ∧
    (rift_tracked_device_imu_update dev_c2c 0 5000000 0 vec3f_zero vec3f_zero
        vec3f_zero).1.device_time_ns ≠ dev_c2c.device_time_ns + 5000000000 ∧
    (rift_tracked_device_imu_update dev_c2c 0 5000000 0 vec3f_zero vec3f_zero
        vec3f_zero).1.device_time_ns = dev_c2c.device_time_ns + 705032704 := by
  decide

/-- Claim C2 (amended): on every IMU update that finds a non-zero extended
clock, the clock advances by exactly
(((uint32_t)(new_raw - last_raw)) * 1000) mod 2^32 nanoseconds - the
multiplication itself is performed in C 32-bit unsigned arithmetic - provided
the 64-bit sum does not wrap.  Across the 32-bit microsecond wraparound the
cast difference still yields the true small delta. -/
theorem imu_update_clock_advance (dev : rift_tracked_device_priv)
    (lts ts : Nat) (dt : ℚ) (av ac mg : vec3f)
    (h0 : dev.device_time_ns ≠ 0)
    (h1 : dev.device_time_ns + usub32 ts dev.last_device_ts * 1000 % U32 < U64MOD) :
    (rift_tracked_device_imu_update dev lts ts dt av ac mg).1.device_time_ns =
      dev.device_time_ns + usub32 ts dev.last_device_ts * 1000 % U32 := by
  simp only [rift_tracked_device_imu_update, if_neg h0]
  exact Nat.mod_eq_of_lt h1

/-- Claim C2 witness: the wrap-around example of the spec.  With
last_device_ts = 0xFFFFFF00 and new raw timestamp 0x00000100 the clock
advances by exactly 512000 ns. -/
theorem imu_update_clock_advance_witness :
    (rift_tracked_device_imu_update dev_c2w 0 256 0 vec3f_zero vec3f_zero
        vec3f_zero).1.device_time_ns = 1000000 + 512000 := by
  have h := imu_update_clock_advance dev_c2w 0 256 0 vec3f_zero vec3f_zero
    vec3f_zero (by decide) (by decide)
  have h2 : dev_c2w.device_time_ns + usub32 256 dev_c2w.last_device_ts * 1000 % U32 =
      1000000 + 512000 := by decide
  exact h.trans h2

/-! ### Claim C10 - first IMU update sets the clock directly -/

/-- Claim C10 counterexample: on the very first IMU update (device_time_ns
still 0) with raw timestamp 5000000, the clock is NOT set to the raw
timestamp times 1000 = 5000000000: the C multiplication device_ts * 1000 is
performed in 32-bit unsigned arithmetic and wraps to 705032704. -/
theorem imu_update_first_sets_clock_counterexample :
    dev_init.device_time_ns = 0 ∧
    (rift_tracked_device_imu_update dev_init 0 5000000 0 vec3f_zero vec3f_zero
        vec3f_zero).1.device_time_ns ≠ 5000000 * 1000 ∧
    (rift_tracked_device_imu_update dev_init 0 5000000 0 vec3f_zero vec3f_zero
        vec3f_zero).1.device_time_ns = 5000000 * 1000 % U32 := by
  decide

/-- Claim C10 (amended): on an IMU update that finds device_time_ns == 0, the
clock is set directly to (raw timestamp * 1000) mod 2^32 - the multiplication
is performed in C 32-bit unsigned arithmetic - rather than advanced by the
delta from last_device_ts, and last_device_ts is stored; the delta-based
extension runs exactly when device_time_ns is non-zero. -/
theorem imu_update_first_sets_clock (dev : rift_tracked_device_priv)
    (lts ts : Nat) (dt : ℚ) (av ac mg : vec3f)
    (h0 : dev.device_time_ns = 0) :
    (rift_tracked_device_imu_update dev lts ts dt av ac mg).1.device_time_ns =
      ts * 1000 % U32 ∧
    (rift_tracked_device_imu_update dev lts ts dt av ac mg).1.last_device_ts = ts := by
  simp [rift_tracked_device_imu_update, h0]

/-- Claim C10 witness: from the freshly initialised device, an IMU update with
raw timestamp 2000 sets the clock to 2000000 ns. -/
theorem imu_update_first_sets_clock_witness :
    (rift_tracked_device_imu_update dev_init 0 2000 0 vec3f_zero vec3f_zero
        vec3f_zero).1.device_time_ns = 2000 * 1000 % U32 ∧
    (rift_tracked_device_imu_update dev_init 0 2000 0 vec3f_zero vec3f_zero
        vec3f_zero).1.last_device_ts = 2000 :=
  imu_update_first_sets_clock dev_init 0 2000 0 vec3f_zero vec3f_zero vec3f_zero
    (by decide)

/-! ### Claim C6 - rejected payloads leave the stream untouched -/

/-- Claim C6: a payload that is empty, exactly 12 bytes (header only), carries
a bHeaderLength different from 12, or carries the error bit (bit 6 of
bmHeaderInfo) leaves the whole stream state unchanged and delivers no frame. -/
theorem process_payload_reject_no_change (s : rift_sensor_uvc_stream)
    (p : List Nat) (now : Nat)
    (h : p.length = 0 ∨ p.length = 12 ∨ p.getD 0 0 ≠ 12 ∨
      (p.getD 1 0).testBit 6 = true) :
    process_payload s p now = (s, []) := by
  rcases h with h | h | h | h
  · simp [process_payload, h]
  · simp [process_payload, h]
  · simp only [List.getD_eq_getElem?_getD] at h
    simp [process_payload, h]
  · simp only [List.getD_eq_getElem?_getD] at h
    simp [process_payload, h]

/-- Claim C6 witness: the empty payload, a header-only payload, a payload
with bHeaderLength 11 and a payload with the error bit all leave a concrete
stream unchanged. -/
theorem process_payload_reject_no_change_witness :
    process_payload stream_base [] 0 = (stream_base, []) ∧
    process_payload stream_base (List.replicate 12 12) 0 = (stream_base, []) ∧
    process_payload stream_base (11 :: List.replicate 13 0) 0 = (stream_base, []) ∧
    process_payload stream_base (12 :: 64 :: List.replicate 12 0) 0 = (stream_base, []) :=
  ⟨process_payload_reject_no_change stream_base [] 0 (Or.inl rfl),
   process_payload_reject_no_change stream_base (List.replicate 12 12) 0
     (Or.inr (Or.inl rfl)),
   process_payload_reject_no_change stream_base (11 :: List.replicate 13 0) 0
     (Or.inr (Or.inr (Or.inl (by decide)))),
   process_payload_reject_no_change stream_base (12 :: 64 :: List.replicate 12 0) 0
     (Or.inr (Or.inr (Or.inr (by decide))))⟩

/-! ### Claim C9 - delay slot release accounting -/

/-- Claim C9: releasing a delay slot never drives use_count below 0; releasing
again with the state and exposure entry produced by a release is a complete
no-op (no state change, no filter release call); and a release against a slot
that is already freed (valid == false) changes nothing and never reaches the
filter. -/
theorem exposure_release_idempotent (dev : rift_tracked_device_priv)
    (info : rift_tracked_device_exposure_info) :
    (∀ j : Fin 3, 0 ≤ (dev.delay_slots.get j).use_count →
       0 ≤ ((rift_tracked_device_exposure_release_locked dev info).1.delay_slots.get
         j).use_count) ∧
    (rift_tracked_device_exposure_release_locked
        (rift_tracked_device_exposure_release_locked dev info).1
        (rift_tracked_device_exposure_release_locked dev info).2.1 =
      ((rift_tracked_device_exposure_release_locked dev info).1,
       (rift_tracked_device_exposure_release_locked dev info).2.1, [])) ∧
    (∀ j : Fin 3, info.fusion_slot = (j.val : Int) →
       (dev.delay_slots.get j).valid = false →
       rift_tracked_device_exposure_release_locked dev info = (dev, info, [])) := by
  refine ⟨?_, ?_, ?_⟩
  · intro j hj
    rcases hm : get_matching_delay_slot dev info with _ | i
    · simp [rift_tracked_device_exposure_release_locked, hm, hj]
    · simp only [rift_tracked_device_exposure_release_locked, hm]
      rw [DelaySlots.get_set]
      split_ifs <;> simp_all <;> omega
  · rcases hm : get_matching_delay_slot dev info with _ | i
    · simp [rift_tracked_device_exposure_release_locked, hm]
    · have hneg : ∀ d : rift_tracked_device_priv,
          rift_tracked_device_exposure_release_locked d
            { info with fusion_slot := -1 } =
          (d, { info with fusion_slot := -1 }, []) := by
        intro d
        simp [rift_tracked_device_exposure_release_locked,
          get_matching_delay_slot_none_of_neg d { info with fusion_slot := -1 } rfl]
      simp only [rift_tracked_device_exposure_release_locked, hm]
      exact hneg _
  · intro j hfs hval
    have hm : get_matching_delay_slot dev info = none := by
      fin_cases j <;> simp_all [get_matching_delay_slot, DelaySlots.get]
    simp [rift_tracked_device_exposure_release_locked, hm]

/-- Claim C9 witness: releasing the once-claimed slot keeps use_count at 0
(not negative), and releasing an already freed slot is a no-op. -/
theorem exposure_release_idempotent_witness :
    (0 ≤ ((rift_tracked_device_exposure_release_locked dev_c9w
       info_c9w).1.delay_slots.get 0).use_count) ∧
    (rift_tracked_device_exposure_release_locked dev_init info_c9f =
      (dev_init, info_c9f, [])) :=
  ⟨(exposure_release_idempotent dev_c9w info_c9w).1 0 (by decide),
   (exposure_release_idempotent dev_init info_c9f).2.2 0 (by decide) (by decide)⟩

/-! ### Claim C3 - orientation gate -/

/-- Claim C3 counterexample: the slot matches, the score lacks MATCH_ORIENT,
and more than 100 ms of device time has passed without an orientation match
(last_observed_orient_ts is 200 ms old), yet the orientation observation is
NOT accepted - the code compares against last_observed_pose_ts (50 ms old),
not the orientation-match time. -/
theorem model_pose_orient_gate_counterexample :
    get_matching_delay_slot dev_c3c info_c3c = some 0 ∧
    score_c3.match_orient = false ∧
    POSE_LOST_ORIENT_THRESHOLD * 1000000 <
      usub64 dev_c3c.device_time_ns dev_c3c.last_observed_orient_ts ∧
    (rift_tracked_device_model_pose_update dev_c3c (some info_c3c) score_c3
      posef_zero).update_orientation = false := by
  decide

/-- Claim C3 (amended): in every model-pose update that finds a matching delay
slot, the orientation observation is accepted iff the score carries the
MATCH_ORIENT flag, or more than 100 ms of device time has passed since the
last accepted position observation (the code measures from
last_observed_pose_ts, not from the last orientation match). -/
theorem model_pose_orient_gate (dev : rift_tracked_device_priv)
    (info : rift_tracked_device_exposure_info) (score : rift_pose_metrics)
    (mp : posef) (i : Fin 3)
    (h : get_matching_delay_slot dev info = some i) :
    (rift_tracked_device_model_pose_update dev (some info) score
        mp).update_orientation =
      (score.match_orient ||
        decide (POSE_LOST_ORIENT_THRESHOLD * 1000000 <
          usub64 dev.device_time_ns dev.last_observed_pose_ts)) := by
  simp only [rift_tracked_device_model_pose_update, h]

/-- Claim C3 witness: with a matching slot, a score lacking MATCH_ORIENT and
200 ms since the last accepted position, the forced refresh accepts the
orientation. -/
theorem model_pose_orient_gate_witness :
    (rift_tracked_device_model_pose_update dev_c3w (some info_c3c) score_c3
      posef_zero).update_orientation = true :=
  (model_pose_orient_gate dev_c3w info_c3c score_c3 posef_zero 0 (by decide)).trans
    (by decide)

/-! ### Claim C4 - position gate and report recording -/

/-- Claim C4 counterexample: a rejected report arriving at a matching slot
that already holds RIFT_MAX_SENSORS reports is NOT recorded - the slot
report list is left unchanged, against the unconditional "still recorded"
of the claim. -/
theorem model_pose_record_counterexample :
    get_matching_delay_slot dev_c4c info_c4w = some 0 ∧
    (dev_c4c.delay_slots.get 0).pose_reports.length = RIFT_MAX_SENSORS ∧
    (rift_tracked_device_model_pose_update dev_c4c (some info_c4w) score_c4
      posef_zero).update_position = false ∧
    ((rift_tracked_device_model_pose_update dev_c4c (some info_c4w) score_c4
      posef_zero).dev.delay_slots.get 0).pose_reports =
      (dev_c4c.delay_slots.get 0).pose_reports := by
  decide

/-- Claim C4 (amended): in every model-pose update that finds a matching delay
slot, the position observation is rejected iff had_pose_lock was set, the
score lacks MATCH_POSITION and last_observed_pose_ts exceeds the exposure
device time; a rejected report makes no filter call at all and leaves
last_observed_pose_ts unchanged, and it is recorded in the slot with
report_used == false provided the slot holds fewer than RIFT_MAX_SENSORS
reports (a full slot records nothing). -/
theorem model_pose_position_gate (dev : rift_tracked_device_priv)
    (info : rift_tracked_device_exposure_info) (score : rift_pose_metrics)
    (mp : posef) (i : Fin 3)
    (h : get_matching_delay_slot dev info = some i) :
    ((rift_tracked_device_model_pose_update dev (some info) score
        mp).update_position = false ↔
      (info.had_pose_lock = true ∧ score.match_position = false ∧
        info.device_time_ns < dev.last_observed_pose_ts)) ∧
    ((rift_tracked_device_model_pose_update dev (some info) score
        mp).update_position = false →
      (rift_tracked_device_model_pose_update dev (some info) score mp).ops = [] ∧
      (rift_tracked_device_model_pose_update dev (some info) score
        mp).dev.last_observed_pose_ts = dev.last_observed_pose_ts) ∧
    ((rift_tracked_device_model_pose_update dev (some info) score
        mp).update_position = false →
      (dev.delay_slots.get i).pose_reports.length < RIFT_MAX_SENSORS →
      ((rift_tracked_device_model_pose_update dev (some info) score
          mp).dev.delay_slots.get i).pose_reports =
        (dev.delay_slots.get i).pose_reports ++
          [{ report_used := false, pose := oposef_apply dev.fusion_from_model mp,
             score := score }]) := by
  simp only [rift_tracked_device_model_pose_update, h]
  refine ⟨?_, ?_, ?_⟩
  · simp [Bool.and_eq_true, decide_eq_true_eq]
    tauto
  · intro hfalse
    rw [hfalse]
    simp
  · intro hfalse hroom
    rw [hfalse]
    rw [DelaySlots.get_set]
    simp [hroom, hfalse]

/-- Claim C4 witness: with pose lock, a score lacking MATCH_POSITION and a
newer accepted observation, the report is rejected, no filter call is made,
and the report lands in the slot with report_used == false. -/
theorem model_pose_position_gate_witness :
    (rift_tracked_device_model_pose_update dev_c4w (some info_c4w) score_c4
      posef_zero).update_position = false ∧
    (rift_tracked_device_model_pose_update dev_c4w (some info_c4w) score_c4
      posef_zero).ops = [] ∧
    ((rift_tracked_device_model_pose_update dev_c4w (some info_c4w) score_c4
        posef_zero).dev.delay_slots.get 0).pose_reports =
      (dev_c4w.delay_slots.get 0).pose_reports ++
        [{ report_used := false,
           pose := oposef_apply dev_c4w.fusion_from_model posef_zero,
           score := score_c4 }] := by
  have h := model_pose_position_gate dev_c4w info_c4w score_c4 posef_zero 0 (by decide)
  have hfalse := h.1.mpr (by decide)
  exact ⟨hfalse, (h.2.1 hfalse).1, h.2.2 hfalse (by decide)⟩

/-! ### Claim C1 - delay slot allocation on a new exposure -/

/-- Claim C1: on a new exposure, the allocator first scans the three slots in
round-robin order from the cursor and takes the first with use_count == 0;
failing that it reclaims the first slot by index that is valid with
n_used_reports > 0; either way the winning slot is re-stamped for the new
exposure (valid, use_count 0, the device clock, empty reports) and its index
is published as fusion_slot; if neither search succeeds the entry gets
fusion_slot == -1 and no slot changes. -/
theorem on_new_exposure_slot_allocation (dev : rift_tracked_device_priv)
    (info : rift_tracked_device_exposure_info)
    (kp : posef) (ke kr : vec3f) :
    (match
      [dev.delay_slot_index, succ3 dev.delay_slot_index,
        succ3 (succ3 dev.delay_slot_index)].find?
        (fun i => decide ((dev.delay_slots.get i).use_count = 0)),
      ([0, 1, 2] : List (Fin 3)).find?
        (fun i => (dev.delay_slots.get i).valid &&
          decide (0 < (dev.delay_slots.get i).n_used_reports)) with
    | some i, _ =>
      (rift_tracked_device_on_new_exposure dev info kp ke kr).2.1.fusion_slot =
        (i.val : Int) ∧
      (rift_tracked_device_on_new_exposure dev info kp ke kr).1.delay_slots =
        dev.delay_slots.set i
          { valid := true, use_count := 0, device_time_ns := dev.device_time_ns,
            pose_reports := [], n_used_reports := 0 }
    | none, some i =>
      (rift_tracked_device_on_new_exposure dev info kp ke kr).2.1.fusion_slot =
        (i.val : Int) ∧
      (rift_tracked_device_on_new_exposure dev info kp ke kr).1.delay_slots =
        dev.delay_slots.set i
          { valid := true, use_count := 0, device_time_ns := dev.device_time_ns,
            pose_reports := [], n_used_reports := 0 }
    | none, none =>
      (rift_tracked_device_on_new_exposure dev info kp ke kr).2.1.fusion_slot = -1 ∧
      (rift_tracked_device_on_new_exposure dev info kp ke kr).1.delay_slots =
        dev.delay_slots) := by
  by_cases c0 : (dev.delay_slots.get dev.delay_slot_index).use_count = 0
  · simp [rift_tracked_device_on_new_exposure, find_free_delay_slot,
      rift_tracked_device_get_model_pose_locked, List.find?, c0]
  · by_cases c1 : (dev.delay_slots.get (succ3 dev.delay_slot_index)).use_count = 0
    · simp [rift_tracked_device_on_new_exposure, find_free_delay_slot,
        rift_tracked_device_get_model_pose_locked, List.find?, c0, c1]
    · by_cases c2 :
        (dev.delay_slots.get (succ3 (succ3 dev.delay_slot_index))).use_count = 0
      · simp [rift_tracked_device_on_new_exposure, find_free_delay_slot,
          rift_tracked_device_get_model_pose_locked, List.find?, c0, c1, c2]
      · by_cases v0 : (dev.delay_slots.get 0).valid = true ∧
          0 < (dev.delay_slots.get 0).n_used_reports
        · have b0 : ((dev.delay_slots.get 0).valid &&
              decide (0 < (dev.delay_slots.get 0).n_used_reports)) = true := by
            simp [v0.1, v0.2]
          simp [rift_tracked_device_on_new_exposure, find_free_delay_slot,
            reclaim_delay_slot, rift_tracked_device_get_model_pose_locked,
            List.find?, c0, c1, c2, v0, b0]
        · have b0 : ((dev.delay_slots.get 0).valid &&
              decide (0 < (dev.delay_slots.get 0).n_used_reports)) = false := by
            cases h0v : (dev.delay_slots.get 0).valid <;> simp_all
          by_cases v1 : (dev.delay_slots.get 1).valid = true ∧
            0 < (dev.delay_slots.get 1).n_used_reports
          · have b1 : ((dev.delay_slots.get 1).valid &&
                decide (0 < (dev.delay_slots.get 1).n_used_reports)) = true := by
              simp [v1.1, v1.2]
            simp [rift_tracked_device_on_new_exposure, find_free_delay_slot,
              reclaim_delay_slot, rift_tracked_device_get_model_pose_locked,
              List.find?, c0, c1, c2, v0, v1, b0, b1]
          · have b1 : ((dev.delay_slots.get 1).valid &&
                decide (0 < (dev.delay_slots.get 1).n_used_reports)) = false := by
              cases h1v : (dev.delay_slots.get 1).valid <;> simp_all
            by_cases v2 : (dev.delay_slots.get 2).valid = true ∧
              0 < (dev.delay_slots.get 2).n_used_reports
            · have b2 : ((dev.delay_slots.get 2).valid &&
                  decide (0 < (dev.delay_slots.get 2).n_used_reports)) = true := by
                simp [v2.1, v2.2]
              simp [rift_tracked_device_on_new_exposure, find_free_delay_slot,
                reclaim_delay_slot, rift_tracked_device_get_model_pose_locked,
                List.find?, c0, c1, c2, v0, v1, v2, b0, b1, b2]
            · have b2 : ((dev.delay_slots.get 2).valid &&
                  decide (0 < (dev.delay_slots.get 2).n_used_reports)) = false := by
                cases h2v : (dev.delay_slots.get 2).valid <;> simp_all
              simp [rift_tracked_device_on_new_exposure, find_free_delay_slot,
                reclaim_delay_slot, rift_tracked_device_get_model_pose_locked,
                List.find?, c0, c1, c2, v0, v1, v2, b0, b1, b2]

/-! ### Claim C5 - view pose freezes position on tracking loss -/

/-- Claim C5: in a view-pose query where the device clock exceeds
last_reported_pose, if at least 500 ms of device time passed since the last
positional observation then the reported position stays frozen at the
previously reported position, the returned acceleration is the rotation of a
zeroed IMU acceleration (hence zero), the returned linear velocity keeps only
the angular-velocity cross term (the IMU linear velocity is zeroed), and the
reported orientation is still driven through the output filter by the Kalman
orientation estimate; below the threshold the full filter pose is smoothed
and reported.  The hypothesis on the output filter state is the steady-state
relationship the code maintains: the smoothing filter carries the last
reported pose. -/
theorem get_view_pose_position_lock (dev : rift_tracked_device_priv)
    (kp : posef) (iv ia iw : vec3f)
    (hT : dev.last_reported_pose < dev.device_time_ns)
    (hS : ∀ q, dev.pose_output_filter.state = some q →
      q.pos = dev.reported_pose.pos) :
    (POSE_LOST_THRESHOLD * 1000000 ≤
        usub64 dev.device_time_ns dev.last_observed_pose_ts →
      (rift_tracked_device_get_view_pose dev kp iv ia iw).2.pose.pos =
        dev.reported_pose.pos ∧
      (rift_tracked_device_get_view_pose dev kp iv ia iw).2.pose.orient =
        (exp_filter_pose_run dev.pose_output_filter dev.device_time_ns
          ⟨dev.reported_pose.pos,
           (oposef_apply dev.device_from_fusion kp).orient⟩).2.orient ∧
      (rift_tracked_device_get_view_pose dev kp iv ia iw).2.accel = vec3f_zero ∧
      (rift_tracked_device_get_view_pose dev kp iv ia iw).2.vel =
        ovec3f_cross (oquatf_get_rotated dev.device_from_fusion.orient iw)
          (oquatf_get_rotated dev.device_from_fusion.orient
            dev.device_from_fusion.pos)) ∧
    (usub64 dev.device_time_ns dev.last_observed_pose_ts <
        POSE_LOST_THRESHOLD * 1000000 →
      (rift_tracked_device_get_view_pose dev kp iv ia iw).2.pose =
        (exp_filter_pose_run dev.pose_output_filter dev.device_time_ns
          (oposef_apply dev.device_from_fusion kp)).2 ∧
      (rift_tracked_device_get_view_pose dev kp iv ia iw).2.accel =
        oquatf_get_rotated dev.device_from_fusion.orient ia ∧
      (rift_tracked_device_get_view_pose dev kp iv ia iw).2.vel =
        ovec3f_add (oquatf_get_rotated dev.device_from_fusion.orient iv)
          (ovec3f_cross (oquatf_get_rotated dev.device_from_fusion.orient iw)
            (oquatf_get_rotated dev.device_from_fusion.orient
              dev.device_from_fusion.pos))) := by
  constructor
  · intro hlost
    refine ⟨?_, ?_, ?_, ?_⟩
    · rcases hfs : dev.pose_output_filter.state with _ | prev
      · simp [rift_tracked_device_get_view_pose, if_pos hT, if_pos hlost,
          exp_filter_pose_run, hfs]
      · have hp := hS prev hfs
        simp [rift_tracked_device_get_view_pose, if_pos hT, if_pos hlost,
          exp_filter_pose_run, hfs, hp, vec3f_lerp_self]
    · simp [rift_tracked_device_get_view_pose, if_pos hT, if_pos hlost]
    · simp [rift_tracked_device_get_view_pose, if_pos hT, if_pos hlost,
        oquatf_get_rotated_zero]
    · simp [rift_tracked_device_get_view_pose, if_pos hT, if_pos hlost,
        oquatf_get_rotated_zero, ovec3f_add_zero_left]
  · intro hnear
    have hlost : ¬(POSE_LOST_THRESHOLD * 1000000 ≤
        usub64 dev.device_time_ns dev.last_observed_pose_ts) := by omega
    refine ⟨?_, ?_, ?_⟩
    · simp [rift_tracked_device_get_view_pose, if_pos hT, if_neg hlost]
    · simp [rift_tracked_device_get_view_pose, if_pos hT, if_neg hlost]
    · simp [rift_tracked_device_get_view_pose, if_pos hT, if_neg hlost]

/-- Claim C5 witness: 600 ms after the last positional observation, with a
pending clock ahead of the last report, the position is frozen at the
previously reported value and the returned acceleration is zero. -/
theorem get_view_pose_position_lock_witness :
    (rift_tracked_device_get_view_pose dev_c5w posef_zero vec3f_zero vec3f_zero
      vec3f_zero).2.pose.pos = dev_c5w.reported_pose.pos ∧
    (rift_tracked_device_get_view_pose dev_c5w posef_zero vec3f_zero vec3f_zero
      vec3f_zero).2.accel = vec3f_zero := by
  have h := get_view_pose_position_lock dev_c5w posef_zero vec3f_zero vec3f_zero
    vec3f_zero (by decide) (by intro q hq; simp [dev_c5w, dev_init] at hq)
  obtain ⟨h1, h2, h3, h4⟩ := h.1 (by decide)
  exact ⟨h1, h3⟩

/-! ### UVC stage lemmas -/

theorem uvc_adopt_pts_fields (s : rift_sensor_uvc_stream) (hp : Bool) (pts : Nat) :
    (uvc_adopt_pts s hp pts).frame_collected = s.frame_collected ∧
    (uvc_adopt_pts s hp pts).frame_size = s.frame_size ∧
    (uvc_adopt_pts s hp pts).skip_frame = s.skip_frame ∧
    (uvc_adopt_pts s hp pts).cur_frame = s.cur_frame ∧
    (uvc_adopt_pts s hp pts).frame_id = s.frame_id ∧
    (uvc_adopt_pts s hp pts).has_frame_cb = s.has_frame_cb := by
  unfold uvc_adopt_pts
  split_ifs <;> simp

theorem uvc_new_frame_same_id (s : rift_sensor_uvc_stream) (fid pts now : Nat)
    (h : fid = s.frame_id) : uvc_new_frame s fid pts now = s := by
  unfold uvc_new_frame
  rw [if_neg]
  simp [h]

theorem uvc_new_frame_fc_zero (s : rift_sensor_uvc_stream) (fid pts now : Nat)
    (h : fid ≠ s.frame_id) :
    (uvc_new_frame s fid pts now).frame_collected = 0 := by
  unfold uvc_new_frame
  rw [if_pos h]
  repeat' split
  all_goals rcases hsc : s.cur_frame with _ | f <;> simp_all

theorem u32_add_int_ofNat (a : Nat) (b : Int) (hb : 0 ≤ b) :
    u32_add_int a b = (a + b.toNat) % U32 := by
  unfold u32_add_int U32
  omega

theorem uvc_append_skip_id (s : rift_sensor_uvc_stream) (b : List Nat)
    (pl : Int) (e : Bool) (h : s.skip_frame = true ∨ s.cur_frame = none) :
    uvc_append s b pl e = (s, []) := by
  unfold uvc_append
  rw [if_pos h]

theorem uvc_append_eof (s : rift_sensor_uvc_stream) (b : List Nat)
    (pl : Int) (f : ohmd_video_frame)
    (h1 : s.skip_frame = false) (h2 : s.cur_frame = some f)
    (hl : 0 ≤ pl)
    (h3 : u32_add_int s.frame_collected pl ≤ s.frame_size) :
    (uvc_append s b pl true).1.frame_collected = 0 := by
  unfold uvc_append
  rw [if_neg (by simp [h1, h2]), if_neg (by omega)]
  simp only [h2]
  rw [if_neg (by omega)]
  split_ifs <;> simp

theorem uvc_append_fc_zero_eof (s : rift_sensor_uvc_stream) (b : List Nat)
    (pl : Int) (hl : 0 ≤ pl) (h : s.frame_collected = 0) :
    (uvc_append s b pl true).1.frame_collected = 0 := by
  unfold uvc_append
  by_cases h1 : s.skip_frame = true ∨ s.cur_frame = none
  · rw [if_pos h1]; exact h
  · rw [if_neg h1]
    by_cases h2 : s.frame_size < u32_add_int s.frame_collected pl
    · rw [if_pos h2]; exact h
    · rw [if_neg h2]
      rcases hc : s.cur_frame with _ | f
      · simp only [hc]; exact h
      · simp only [hc]
        rw [if_neg (by omega)]
        split_ifs <;> simp

theorem process_payload_reject_eq (s : rift_sensor_uvc_stream) (p : List Nat)
    (now : Nat) (h : uvc_payload_rejected p) :
    process_payload s p now = (s, []) := by
  rcases h with h | h | h | h
  · simp [process_payload, h]
  · simp [process_payload, h]
  · simp only [List.getD_eq_getElem?_getD] at h
    simp [process_payload, h]
  · simp only [List.getD_eq_getElem?_getD] at h
    simp [process_payload, h]

theorem process_payload_accepted_eq (s : rift_sensor_uvc_stream) (p : List Nat)
    (now : Nat) (hacc : ¬ uvc_payload_rejected p) :
    process_payload s p now =
      uvc_append
        (uvc_new_frame
          (uvc_adopt_pts s ((p.getD 1 0).testBit 2)
            (if (p.getD 1 0).testBit 2 = true then uvc_le32_pts p else U32 - 1))
          (p.getD 1 0 % 2)
          (if (p.getD 1 0).testBit 2 = true then uvc_le32_pts p else U32 - 1) now)
        (p.drop 12) ((p.length : Int) - 12) ((p.getD 1 0).testBit 1) := by
  unfold uvc_payload_rejected at hacc
  push_neg at hacc
  obtain ⟨h0, h12, hh, he⟩ := hacc
  have he2 : (p.getD 1 0).testBit 6 = false := by simpa using he
  simp only [List.getD_eq_getElem?_getD] at hh he2
  simp [process_payload, h0, h12, hh, he2]

/-- Claim C7 (code bug): the UVC payload processor does not keep the claimed
frame-bound discipline on every payload.  A runt payload of 1..11 bytes whose
first byte reads as bHeaderLength 12 passes all four reject checks, the C
signed payload_len = len - 12 is negative, and when frame_collected is at
least 12 - len the unsigned overflow comparison passes and memcpy runs with
the huge size (size_t)payload_len, writing far past the frame buffer instead
of dropping the payload.  This theorem evaluates the model at the failing
input: the 5-byte runt payload against a stream that satisfies the claimed
precondition frame_collected <= frame_size reaches the out-of-bounds memcpy. -/
theorem process_payload_runt_memcpy :
    ¬ uvc_payload_rejected uvc_p_runt ∧
    stream_runt.frame_collected ≤ stream_runt.frame_size ∧
    (process_payload stream_runt uvc_p_runt 0).2 =
      [UVCEvent.memcpy_out_of_bounds] := by
  decide

/-- Claim C8 counterexample: an accepted 15-byte payload with the EOF bit
set whose 3-byte body would overflow the 4-byte frame (3 + 3 > 4) is dropped
at the overflow check before the EOF handling, leaving frame_collected at 3,
against the claimed unconditional reset to 0. -/
theorem process_payload_eof_counterexample :
    ¬ uvc_payload_rejected uvc_p_c8 ∧
    (uvc_p_c8.getD 1 0).testBit 1 = true ∧
    (process_payload stream_c8 uvc_p_c8 0).1.frame_collected = 3 := by
  decide

/-- Claim C8 (amended): for every accepted payload longer than 12 bytes (so
the C payload_len is positive) whose header has the EOF bit set,
frame_collected is 0 after processing, provided the body does not overflow
the frame at matching parity; the reachable-state invariant that skip_frame
or a missing current frame implies frame_collected == 0 covers the skipped
early return.  Payloads dropped at the overflow check - including every runt
payload of 1..11 bytes with bHeaderLength 12, whose negative payload_len is
compared as unsigned - return before the EOF reset and leave frame_collected
unchanged (or reach the out-of-bounds memcpy, after which the program is
undefined). -/
theorem process_payload_eof_resets (s : rift_sensor_uvc_stream) (p : List Nat)
    (now : Nat)
    (hacc : ¬ uvc_payload_rejected p)
    (hlen : 12 < p.length)
    (heof : (p.getD 1 0).testBit 1 = true)
    (hinv : s.skip_frame = true ∨ s.cur_frame = none → s.frame_collected = 0)
    (hnoov : p.getD 1 0 % 2 = s.frame_id →
      s.frame_collected + (p.length - 12) ≤ s.frame_size) :
    (process_payload s p now).1.frame_collected = 0 := by
  rw [process_payload_accepted_eq s p now hacc, heof]
  set tb := (p.getD 1 0).testBit 2 with htb
  set pts := if tb = true then uvc_le32_pts p else U32 - 1 with hpts
  set fid := p.getD 1 0 % 2 with hfid
  set s1 := uvc_adopt_pts s tb pts with hs1
  have hA := uvc_adopt_pts_fields s tb pts
  rw [← hs1] at hA
  by_cases hpar : fid = s1.frame_id
  · rw [uvc_new_frame_same_id s1 fid pts now hpar]
    by_cases hskip : s1.skip_frame = true ∨ s1.cur_frame = none
    · rw [uvc_append_skip_id s1 (p.drop 12) ((p.length : Int) - 12) true hskip]
      have hsk0 : s.skip_frame = true ∨ s.cur_frame = none := by
        rcases hskip with hx | hx
        · exact Or.inl (by rw [← hA.2.2.1]; exact hx)
        · exact Or.inr (by rw [← hA.2.2.2.1]; exact hx)
      rw [hA.1]
      exact hinv hsk0
    · push_neg at hskip
      obtain ⟨f, hf⟩ := Option.ne_none_iff_exists'.mp hskip.2
      have hnv := hnoov (by rw [← hA.2.2.2.2.1]; exact hpar)
      refine uvc_append_eof s1 (p.drop 12) ((p.length : Int) - 12) f
        (by simpa using hskip.1) hf (by omega) ?_
      rw [hA.1, hA.2.1, u32_add_int_ofNat _ _ (by omega)]
      have ht : ((p.length : Int) - 12).toNat = p.length - 12 := by omega
      rw [ht]
      have hm := Nat.mod_le (s.frame_collected + (p.length - 12)) U32
      omega
  · exact uvc_append_fc_zero_eof _ (p.drop 12) ((p.length : Int) - 12)
      (by omega) (uvc_new_frame_fc_zero s1 fid pts now hpar)

/-- Claim C8 witness: a 15-byte accepted EOF payload matching parity, whose
3-byte body fits the 16-byte frame of the base stream, leaves frame_collected
at 0. -/
theorem process_payload_eof_resets_witness :
    (process_payload stream_base uvc_p_c8 0).1.frame_collected = 0 :=
  process_payload_eof_resets stream_base uvc_p_c8 0 (by decide) (by decide)
    (by decide) (fun _ => by decide) (fun _ => by decide)
